import Mathlib

/-
Shallow embedding of the BrainDrive OpenAI settings plugin
(src/src/utils.ts and src/unnamed/part_002, class OpenAIService).

JavaScript strings are modelled as `List Char`.  JavaScript numbers are
modelled exactly (as rationals, plus the two infinities produced by
`parseFloat`); `Number.prototype.toString` is modelled by the exact decimal
rendering, which agrees with JavaScript for every value of the form
m / 10^k in the ordinary display range (scientific notation for extreme
magnitudes is not modelled).  Fallible operations return `Option`.
-/

/- String helper: the characters of a Lean string literal. -/
def str (s : String) : List Char := s.data

/- Whitespace characters trimmed by String.prototype.trim (ASCII range
plus NBSP; the remaining Unicode space code points are not modelled). -/
def jsWs (c : Char) : Bool :=
  (c == ' ') || (c == Char.ofNat 9) || (c == Char.ofNat 10) ||
  (c == Char.ofNat 11) || (c == Char.ofNat 12) || (c == Char.ofNat 13) ||
  (c == Char.ofNat 160)

/- The regex character class [a-zA-Z0-9]. -/
def jsAlnum (c : Char) : Bool := c.isAlpha || c.isDigit

/- Model of String.prototype.trim. -/
def jsTrim (s : List Char) : List Char :=
  ((s.dropWhile jsWs).reverse.dropWhile jsWs).reverse

/- JavaScript numbers reachable in this code base: finite values exactly,
plus Infinity and -Infinity (NaN is represented by `none` at parse sites
and cannot occur inside stored settings, which come from JSON). -/
inductive JsNum where
  | fin (q : ℚ)
  | inf
  | ninf
deriving DecidableEq, Repr

/- JavaScript `<` on numbers (no NaN case needed, see above). -/
def jsNumLt : JsNum → JsNum → Bool
  | JsNum.fin a, JsNum.fin b => Rat.blt a b
  | JsNum.fin _, JsNum.inf => true
  | JsNum.ninf, JsNum.fin _ => true
  | JsNum.ninf, JsNum.inf => true
  | _, _ => false

/- JavaScript truthiness of a number: 0 is falsy, everything else truthy
(a rational is 0 exactly when its reduced numerator is 0). -/
def jsNumTruthy : JsNum → Bool
  | JsNum.fin q => q.num != 0
  | _ => true

/- Value of a list of decimal digit characters. -/
def decVal (ds : List Char) : ℕ :=
  ds.foldl (fun a c => a * 10 + (c.toNat - 48)) 0

def jsIsHexDigit (c : Char) : Bool :=
  c.isDigit || (decide (97 ≤ c.toNat) && decide (c.toNat ≤ 102)) ||
  (decide (65 ≤ c.toNat) && decide (c.toNat ≤ 70))

def hexDigitVal (c : Char) : ℕ :=
  if c.isDigit then c.toNat - 48
  else if 97 ≤ c.toNat then c.toNat - 87
  else c.toNat - 55

def hexVal (ds : List Char) : ℕ :=
  ds.foldl (fun a c => a * 16 + hexDigitVal c) 0

/- Optional leading sign; returns (isNegative, rest). -/
def parseSign : List Char → Bool × List Char
  | '-' :: r => (true, r)
  | '+' :: r => (false, r)
  | s => (false, s)

/- Model of the global parseInt with no radix argument: skip whitespace,
optional sign, then either a 0x/0X hexadecimal literal or a maximal run of
decimal digits; no digits means NaN, modelled as `none`. -/
def jsParseInt (s : List Char) : Option ℤ :=
  let s1 := s.dropWhile jsWs
  let p := parseSign s1
  match p.2 with
  | '0' :: c :: r =>
    if c == 'x' || c == 'X' then
      let hs := r.takeWhile jsIsHexDigit
      if hs.isEmpty then none
      else some ((if p.1 then -1 else 1) * (hexVal hs : ℤ))
    else
      some ((if p.1 then -1 else 1) * (decVal (('0' :: c :: r).takeWhile Char.isDigit) : ℤ))
  | rest =>
    let ds := rest.takeWhile Char.isDigit
    if ds.isEmpty then none
    else some ((if p.1 then -1 else 1) * (decVal ds : ℤ))

/- Model of the global parseFloat: skip whitespace, optional sign, then the
longest prefix that is an Infinity literal or a decimal literal
digits [. digits] [e/E [sign] digits]; no usable prefix is NaN (`none`). -/
def jsParseFloat (s : List Char) : Option JsNum :=
  let s1 := s.dropWhile jsWs
  let p := parseSign s1
  if (str (r"Infinity")).isPrefixOf p.2 then
    some (if p.1 then JsNum.ninf else JsNum.inf)
  else
    let ids := p.2.takeWhile Char.isDigit
    let r1 := p.2.drop ids.length
    let fp :=
      match r1 with
      | '.' :: t => (t.takeWhile Char.isDigit, t.drop (t.takeWhile Char.isDigit).length)
      | _ => (([] : List Char), r1)
    if ids.isEmpty && fp.1.isEmpty then none
    else
      let m : ℕ := decVal ids * Nat.pow 10 fp.1.length + decVal fp.1
      let sgn : ℤ := if p.1 then -1 else 1
      let e : ℤ :=
        match fp.2 with
        | c :: t =>
          if c == 'e' || c == 'E' then
            let ep := parseSign t
            let eds := ep.2.takeWhile Char.isDigit
            if eds.isEmpty then 0
            else if ep.1 then -(Int.ofNat (decVal eds)) else Int.ofNat (decVal eds)
          else 0
        | [] => 0
      some (JsNum.fin
        (if 0 ≤ e then
          mkRat (sgn * Int.ofNat m * Int.ofNat (Nat.pow 10 e.toNat)) (Nat.pow 10 fp.1.length)
        else
          mkRat (sgn * Int.ofNat m) (Nat.pow 10 fp.1.length * Nat.pow 10 (-e).toNat)))

def digitChar (n : ℕ) : Char := Char.ofNat (48 + n)

/- Digit accumulation, structurally recursive on a fuel argument so the
kernel can evaluate it; fuel at least n always suffices. -/
def natReprAux : ℕ → ℕ → List Char → List Char
  | 0, n, acc => digitChar n :: acc
  | fuel + 1, n, acc =>
    if n < 10 then digitChar n :: acc
    else natReprAux fuel (n / 10) (digitChar (n % 10) :: acc)

/- Decimal digits of a natural number. -/
def natRepr (n : ℕ) : List Char := natReprAux n n []

/- Multiplicity counting with the same fuel pattern. -/
def countFacAux : ℕ → ℕ → ℕ → ℕ
  | 0, _, _ => 0
  | fuel + 1, p, n =>
    if 2 ≤ p ∧ 2 ≤ n ∧ n % p = 0 then countFacAux fuel p (n / p) + 1 else 0

/- Multiplicity of the factor p in n (0 for p < 2 or n < 2). -/
def countFac (p n : ℕ) : ℕ := countFacAux n p n

/- Decimal rendering of num/den (den from a reduced rational whose
denominator divides a power of ten — the only values toString meets here). -/
def renderPos (num den : ℕ) : List Char :=
  let k := max (countFac 2 den) (countFac 5 den)
  let dv := num * Nat.pow 10 k / den
  if k = 0 then natRepr dv
  else
    let ds0 := natRepr dv
    let ds := if ds0.length < k + 1 then List.replicate (k + 1 - ds0.length) '0' ++ ds0 else ds0
    ds.take (ds.length - k) ++ '.' :: ds.drop (ds.length - k)

def ratToString (q : ℚ) : List Char :=
  if q.num < 0 then '-' :: renderPos q.num.natAbs q.den
  else renderPos q.num.natAbs q.den

/- Model of Number.prototype.toString for the values occurring here. -/
def jsNumToString : JsNum → List Char
  | JsNum.fin q => ratToString q
  | JsNum.inf => str (r"Infinity")
  | JsNum.ninf => '-' :: str (r"Infinity")

/- Error and result messages used by the source (utils.ts / OpenAIService). -/
def msgApiKeyRequired : List Char := str (r"API Key is required")

def msgApiKeyInvalid : List Char :=
  (str (r"Invalid API Key format. Should start with ")) ++
  '"' :: (str (r"sk-")) ++ '"' :: (str (r" and be 51 characters long"))

def msgOrgInvalid : List Char := str (r"Invalid Organization ID format")

def msgModelRequired : List Char := str (r"Model selection is required")

def msgMaxTokens : List Char := str (r"Max tokens must be between 1 and 8192")

def msgTemperature : List Char := str (r"Temperature must be between 0 and 2")

def msgConnFailed : List Char := str (r"Connection failed")

def msgConnSuccess : List Char := str (r"Connection successful")

def msgSavedSuccess : List Char := str (r"Settings saved successfully")

def msgSavedLocal : List Char := str (r"Settings saved to local storage")

/- Raw form state (interface OpenAISettingsFormState): all five fields are
strings at the UI boundary. -/
structure FormState where
  apiKey : List Char
  organizationId : List Char
  model : List Char
  maxTokens : List Char
  temperature : List Char
deriving DecidableEq, Repr

/- Field-level validation errors (interface ValidationErrors); a missing
key of the JavaScript object is `none`. -/
structure ValidationErrors where
  apiKey : Option (List Char) := none
  organizationId : Option (List Char) := none
  model : Option (List Char) := none
  maxTokens : Option (List Char) := none
  temperature : Option (List Char) := none
deriving DecidableEq, Repr

/- The empty error object: validation succeeded. -/
def noErrors : ValidationErrors := {}

/- Model of the regex test /^sk-[a-zA-Z0-9]\x7b48\x7d$/.test s. -/
def matchesApiKey (s : List Char) : Bool :=
  ((str (r"sk-")).isPrefixOf s) && (s.drop 3).length == 48 &&
  (s.drop 3).all jsAlnum

/- Model of the regex test /^[a-zA-Z0-9]\x7b20,\x7d$/.test s. -/
def matchesOrgId (s : List Char) : Bool :=
  decide (20 ≤ s.length) && s.all jsAlnum

/- utils.ts validateForm: builds the error object field by field. -/
def validateForm (f : FormState) : ValidationErrors :=
  { apiKey :=
      if (jsTrim f.apiKey).isEmpty then some msgApiKeyRequired
      else if !matchesApiKey (jsTrim f.apiKey) then some msgApiKeyInvalid
      else none,
    organizationId :=
      if !(jsTrim f.organizationId).isEmpty && !matchesOrgId (jsTrim f.organizationId) then
        some msgOrgInvalid
      else none,
    model := if f.model.isEmpty then some msgModelRequired else none,
    maxTokens :=
      if !(jsTrim f.maxTokens).isEmpty then
        match jsParseInt f.maxTokens with
        | none => some msgMaxTokens
        | some n => if n < 1 ∨ 8192 < n then some msgMaxTokens else none
      else none,
    temperature :=
      if !(jsTrim f.temperature).isEmpty then
        match jsParseFloat f.temperature with
        | none => some msgTemperature
        | some v =>
          if jsNumLt v (JsNum.fin 0) || jsNumLt (JsNum.fin 2) v then some msgTemperature
          else none
      else none }

/- utils.ts hasValidationErrors: Object.keys(errors).length > 0. -/
def hasValidationErrors (e : ValidationErrors) : Bool :=
  e.apiKey.isSome || e.organizationId.isSome || e.model.isSome ||
  e.maxTokens.isSome || e.temperature.isSome

/- Normalized settings (interface OpenAISettings): optional fields are
absent (`none`) rather than null; numeric fields hold JavaScript numbers. -/
structure Settings where
  apiKey : List Char
  model : List Char
  organizationId : Option (List Char) := none
  maxTokens : Option JsNum := none
  temperature : Option JsNum := none
deriving DecidableEq, Repr

/- utils.ts formDataToSettings. -/
def formDataToSettings (f : FormState) : Settings :=
  { apiKey := jsTrim f.apiKey,
    model := f.model,
    organizationId :=
      if !(jsTrim f.organizationId).isEmpty then some (jsTrim f.organizationId) else none,
    maxTokens :=
      if !(jsTrim f.maxTokens).isEmpty then
        match jsParseInt f.maxTokens with
        | some n => some (JsNum.fin (n : ℚ))
        | none => none
      else none,
    temperature :=
      if !(jsTrim f.temperature).isEmpty then
        match jsParseFloat f.temperature with
        | some v => some v
        | none => none
      else none }

/- utils.ts settingsToFormData: each field is `value-or-empty-string`
(the JavaScript || operator on a possibly-undefined or empty value). -/
def settingsToFormData (s : Settings) : FormState :=
  { apiKey := if s.apiKey.isEmpty then [] else s.apiKey,
    organizationId :=
      match s.organizationId with
      | some o => if o.isEmpty then [] else o
      | none => [],
    model := if s.model.isEmpty then str (r"gpt-4o") else s.model,
    maxTokens :=
      match s.maxTokens with
      | some n => jsNumToString n
      | none => [],
    temperature :=
      match s.temperature with
      | some v => jsNumToString v
      | none => [] }

/- utils.ts sanitizeApiKey: apiKey.substring(0,7) + "..." +
apiKey.substring(apiKey.length - 4) for strings of length at least 10. -/
def sanitizeApiKey (s : List Char) : List Char :=
  if s.isEmpty || decide (s.length < 10) then s
  else s.take 7 ++ (str (r"...")) ++ s.drop (s.length - 4)

/- A JSON-derived JavaScript value, as far as validateSettings inspects it
(strings, numbers, booleans, null; absent object fields are undefined). -/
inductive JsVal where
  | vstr (s : List Char)
  | vnum (n : JsNum)
  | vbool (b : Bool)
  | vnull
  | vundef
deriving DecidableEq, Repr

/- Untrusted persisted/remote settings record: the five fields
validateSettings looks at, each an arbitrary JavaScript value. -/
structure RawSettings where
  apiKey : JsVal := JsVal.vundef
  model : JsVal := JsVal.vundef
  organizationId : JsVal := JsVal.vundef
  maxTokens : JsVal := JsVal.vundef
  temperature : JsVal := JsVal.vundef
deriving DecidableEq, Repr

/- The fixed allow-list of model identifiers in OpenAIService.validateSettings. -/
def allowedModels : List (List Char) :=
  [str (r"gpt-4o"), str (r"gpt-4"), str (r"gpt-3.5-turbo"),
   str (r"gpt-4-turbo"), str (r"gpt-4o-mini")]

/- OpenAIService.validateSettings: defensive revalidation of untrusted
data; any thrown validation error is caught and becomes `none`.  The
truthiness-plus-typeof guards on each field are modelled case by case. -/
def validateSettings (d : RawSettings) : Option Settings :=
  match d.apiKey with
  | JsVal.vstr k =>
    if k.isEmpty then none
    else
      match d.model with
      | JsVal.vstr m =>
        if m.isEmpty then none
        else if !(allowedModels.contains m) then none
        else
          some
            { apiKey := k,
              model := m,
              organizationId :=
                match d.organizationId with
                | JsVal.vstr o => if o.isEmpty then none else some o
                | _ => none,
              maxTokens :=
                match d.maxTokens with
                | JsVal.vnum n => if jsNumTruthy n then some n else none
                | _ => none,
              temperature :=
                match d.temperature with
                | JsVal.vnum n => if jsNumTruthy n then some n else none
                | _ => none }
      | _ => none
  | _ => none

/- Open brace and close brace characters for JSON output. -/
def obrace : List Char := [Char.ofNat 123]

def cbrace : List Char := [Char.ofNat 125]

def hexChar (n : ℕ) : Char := if n < 10 then digitChar n else Char.ofNat (87 + n)

/- JSON.stringify escaping of one string character. -/
def jsonEscapeChar (c : Char) : List Char :=
  if c == '"' then ['\\', '"']
  else if c == '\\' then ['\\', '\\']
  else if c == Char.ofNat 8 then ['\\', 'b']
  else if c == Char.ofNat 9 then ['\\', 't']
  else if c == Char.ofNat 10 then ['\\', 'n']
  else if c == Char.ofNat 12 then ['\\', 'f']
  else if c == Char.ofNat 13 then ['\\', 'r']
  else if c.toNat < 32 then
    ['\\', 'u', '0', '0', hexChar (c.toNat / 16), hexChar (c.toNat % 16)]
  else [c]

def jsonStr (s : List Char) : List Char :=
  '"' :: (s.map jsonEscapeChar).flatten ++ ['"']

/- JSON.stringify of a JavaScript number (non-finite values become null). -/
def jsonNum : JsNum → List Char
  | JsNum.fin q => ratToString q
  | _ => str (r"null")

/- JSON.stringify of a Settings object; fields appear in insertion order
(apiKey, model, organizationId, maxTokens, temperature), optional fields
being omitted when absent. -/
def serializeSettings (s : Settings) : List Char :=
  obrace ++
  jsonStr (str (r"apiKey")) ++ ':' :: jsonStr s.apiKey ++
  ',' :: jsonStr (str (r"model")) ++ ':' :: jsonStr s.model ++
  (match s.organizationId with
   | some o => ',' :: jsonStr (str (r"organizationId")) ++ ':' :: jsonStr o
   | none => []) ++
  (match s.maxTokens with
   | some n => ',' :: jsonStr (str (r"maxTokens")) ++ ':' :: jsonNum n
   | none => []) ++
  (match s.temperature with
   | some n => ',' :: jsonStr (str (r"temperature")) ++ ':' :: jsonNum n
   | none => []) ++
  cbrace

/- Outcome of the injected remote write services.api.post (present-and-
succeeds or present-and-throws); `none` at the call site models a missing
api capability. -/
inductive ApiSave where
  | ok
  | throws
deriving DecidableEq, Repr

/- Outcome of localStorage.setItem: succeeds, or throws an Error whose
message is carried. -/
inductive LocalWrite where
  | ok
  | throws (msg : List Char)
deriving DecidableEq, Repr

/- Result record of OpenAIService.saveSettings. -/
structure SaveResult where
  success : Bool
  message : List Char
deriving DecidableEq, Repr

/- OpenAIService.saveSettings together with OpenAIService.saveToLocalStorage.
State passing: `store` is the localStorage slot under the key
openai_settings_config before the call; the returned pair is the result
record and the slot after the call. -/
def saveSettings (api : Option ApiSave) (lw : LocalWrite)
    (store : Option (List Char)) (s : Settings) : SaveResult × Option (List Char) :=
  match api with
  | some ApiSave.ok => ({ success := true, message := msgSavedSuccess }, store)
  | some ApiSave.throws =>
    (match lw with
     | LocalWrite.ok =>
       ({ success := true, message := msgSavedLocal }, some (serializeSettings s))
     | LocalWrite.throws m => ({ success := false, message := m }, store))
  | none =>
    (match lw with
     | LocalWrite.ok =>
       ({ success := true, message := msgSavedLocal }, some (serializeSettings s))
     | LocalWrite.throws m => ({ success := false, message := m }, store))

/- Outcome of the injected remote read services.api.get: it throws, or it
resolves; a resolved response with a falsy body or falsy body.data is
`returns none`, a truthy response.data is `returns (some raw)`. -/
inductive RemoteGet where
  | throws
  | returns (data : Option RawSettings)
deriving DecidableEq, Repr

/- State of the localStorage slot as loadFromLocalStorage sees it: no item,
an item JSON.parse rejects, or an item parsing to a raw record. -/
inductive LocalStore where
  | empty
  | unparseable
  | stored (raw : RawSettings)
deriving DecidableEq, Repr

/- OpenAIService.loadFromLocalStorage: absent or unparseable storage gives
null; otherwise the parsed record goes through validateSettings. -/
def loadFromLocalStorage : LocalStore → Option Settings
  | LocalStore.empty => none
  | LocalStore.unparseable => none
  | LocalStore.stored raw => validateSettings raw

/- OpenAIService.loadSettings.  Note the source returns
validateSettings(response.data) directly whenever the remote read resolves
with truthy data — including when that validation yields null. -/
def loadSettings (api : Option RemoteGet) (ls : LocalStore) : Option Settings :=
  match api with
  | some (RemoteGet.returns (some raw)) => validateSettings raw
  | some (RemoteGet.returns none) => loadFromLocalStorage ls
  | some RemoteGet.throws => loadFromLocalStorage ls
  | none => loadFromLocalStorage ls

/- Body of the HTTP response to the models request, as response.json()
exposes it: either json() rejects (carrying the parse error's message), or
it resolves to a value with an optional error.message string and an
optional data array whose elements carry id strings. -/
inductive Body where
  | unparseable (parseErrMsg : List Char)
  | json (errMessage : Option (List Char)) (dataIds : Option (List (List Char)))
deriving DecidableEq, Repr

/- Outcome of the fetch call in testConnection: the transport fails with an
Error message, or a response arrives with ok flag, status, statusText and
a body. -/
inductive FetchOutcome where
  | transportErr (msg : List Char)
  | resp (ok : Bool) (status : ℕ) (statusText : List Char) (body : Body)
deriving DecidableEq, Repr

/- Result record of OpenAIService.testConnection. -/
structure TestConnectionResult where
  success : Bool
  message : List Char
  error : Option (List Char) := none
  models : Option (List (List Char)) := none
deriving DecidableEq, Repr

/- The template literal fallback `HTTP $\x7bstatus\x7d: $\x7bstatusText\x7d`. -/
def httpFallback (status : ℕ) (statusText : List Char) : List Char :=
  (str (r"HTTP ")) ++ natRepr status ++ (str (r": ")) ++ statusText

/- The message of the TypeError thrown when a 2xx body has no data array
(data.data.map is applied to undefined); its exact wording is
host-dependent and modelled by a fixed string. -/
def tyErrMsg : List Char := str (r"TypeError: cannot read data.data")

/- OpenAIService.testConnection, given the outcome of the single fetch to
the fixed models endpoint (header assembly is I/O and not modelled).  A
rejecting json() lands in the outer catch, which reuses the Error message. -/
def testConnection : FetchOutcome → TestConnectionResult
  | FetchOutcome.transportErr m =>
    { success := false, message := msgConnFailed, error := some m }
  | FetchOutcome.resp ok status statusText body =>
    if ok then
      match body with
      | Body.unparseable m =>
        { success := false, message := msgConnFailed, error := some m }
      | Body.json _ (some ids) =>
        { success := true, message := msgConnSuccess, models := some ids }
      | Body.json _ none =>
        { success := false, message := msgConnFailed, error := some tyErrMsg }
    else
      match body with
      | Body.unparseable m =>
        { success := false, message := msgConnFailed, error := some m }
      | Body.json (some m) _ =>
        { success := false, message := msgConnFailed,
          error := some (if m.isEmpty then httpFallback status statusText else m) }
      | Body.json none _ =>
        { success := false, message := msgConnFailed,
          error := some (httpFallback status statusText) }

/- The well-formedness of an API key as the specification words it:
sk- followed by exactly 48 alphanumeric characters (51 characters total). -/
def apiKeyWellFormed (s : List Char) : Prop :=
  s.length = 51 ∧ s.take 3 = str (r"sk-") ∧ ∀ c ∈ s.drop 3, jsAlnum c

instance (s : List Char) : Decidable (apiKeyWellFormed s) :=
  decidable_of_iff
    (s.length = 51 ∧ s.take 3 = str (r"sk-") ∧ ∀ c ∈ s.drop 3, jsAlnum c)
    Iff.rfl

/- A well-formed API key: sk- followed by 48 alphanumerics. -/
def skKey : List Char := 's' :: 'k' :: '-' :: List.replicate 48 'a'

/- A short API key (under 10 characters). -/
def shortKey : List Char := str (r"sk-123")

/- C4 counterexample input: a form whose apiKey has a leading space in
front of a well-formed key. -/
def c4Form : FormState :=
  { apiKey := ' ' :: skKey, organizationId := [], model := str (r"gpt-4o"),
    maxTokens := [], temperature := [] }

/- C4 witness input: the same form with the key already trimmed. -/
def c4wForm : FormState :=
  { apiKey := skKey, organizationId := [], model := str (r"gpt-4o"),
    maxTokens := [], temperature := [] }

/- C5 counterexample input: passes validation but carries an untrimmed
apiKey. -/
def c5Form : FormState :=
  { apiKey := ' ' :: skKey, organizationId := [], model := str (r"gpt-4o"),
    maxTokens := [], temperature := [] }

/- C5 witness input: a fully valid form with noncanonical numeric strings. -/
def c5wForm : FormState :=
  { apiKey := skKey, organizationId := [], model := str (r"gpt-4o"),
    maxTokens := str (r"0042"), temperature := str (r"0.70") }

/- C7 witness input: maxTokens and temperature out of range. -/
def c7Form : FormState :=
  { apiKey := skKey, organizationId := [], model := str (r"gpt-4o"),
    maxTokens := str (r"10000"), temperature := str (r"3.0") }

/- C7 counterexample input: whitespace-only numeric fields, non-empty
strings that parse to NaN. -/
def c7cForm : FormState :=
  { apiKey := skKey, organizationId := [], model := str (r"gpt-4o"),
    maxTokens := [' '], temperature := [' '] }

/- C1 inputs: a remote payload with no apiKey field, and a local record
that passes the defensive revalidation. -/
def c1RawBad : RawSettings := { model := JsVal.vstr (str (r"gpt-4o")) }

def c1RawGood : RawSettings :=
  { apiKey := JsVal.vstr (str (r"sk-local-key")),
    model := JsVal.vstr (str (r"gpt-4o")) }

/- C10 inputs: a raw record whose numeric fields are the number 0. -/
def c10Raw : RawSettings :=
  { apiKey := JsVal.vstr (str (r"sk-x")),
    model := JsVal.vstr (str (r"gpt-4o")),
    maxTokens := JsVal.vnum (JsNum.fin 0),
    temperature := JsVal.vnum (JsNum.fin 0) }

def c10Settings : Settings :=
  { apiKey := str (r"sk-x"), model := str (r"gpt-4o") }

/-- C2: for every Settings value, saveSettings answers success with
"Settings saved successfully" and leaves local storage untouched when the
remote write succeeds; answers success with "Settings saved to local
storage" and writes the serialized settings locally when the remote write
throws; and answers success=false carrying the local write's error message
when the local fallback also throws (local storage then left unchanged). -/
theorem c2_saveSettings_fallback (s : Settings) (store : Option (List Char)) :
    (∀ lw, saveSettings (some ApiSave.ok) lw store s =
      ({ success := true, message := msgSavedSuccess }, store))
  ∧ saveSettings (some ApiSave.throws) LocalWrite.ok store s =
      ({ success := true, message := msgSavedLocal }, some (serializeSettings s))
  ∧ (∀ m, saveSettings (some ApiSave.throws) (LocalWrite.throws m) store s =
      ({ success := false, message := m }, store)) :=
  ⟨fun _ => rfl, rfl, fun _ => rfl⟩

/-- C8: for every 2xx response whose body holds a data array of model
records, testConnection reports success, "Connection successful", and the
record ids exactly in server order, with no sorting. -/
theorem c8_testConnection_success_order (status : ℕ) (statusText : List Char)
    (errMessage : Option (List Char)) (ids : List (List Char)) :
    testConnection (FetchOutcome.resp true status statusText (Body.json errMessage (some ids))) =
      { success := true, message := msgConnSuccess, error := none, models := some ids } :=
  rfl

/-- C9: sanitizeApiKey keeps the first 7 characters, inserts "...", and
keeps the last 4 characters for every string of length at least 10, and
returns any shorter string (including the empty string) unchanged. -/
theorem c9_sanitizeApiKey_spec (s : List Char) :
    (10 ≤ s.length → sanitizeApiKey s = s.take 7 ++ (str (r"...")) ++ s.drop (s.length - 4))
  ∧ (s.length < 10 → sanitizeApiKey s = s) := by
  constructor
  · intro h
    have h0 : s.isEmpty = false := by
      cases s with
      | nil => simp at h
      | cons a t => rfl
    simp [sanitizeApiKey, h0, Nat.not_lt.mpr h]
  · intro h
    simp [sanitizeApiKey, h]

theorem c9_witness :
    sanitizeApiKey skKey = skKey.take 7 ++ (str (r"...")) ++ skKey.drop (skKey.length - 4)
  ∧ sanitizeApiKey shortKey = shortKey :=
  ⟨(c9_sanitizeApiKey_spec skKey).1 (by decide),
   (c9_sanitizeApiKey_spec shortKey).2 (by decide)⟩

/-- C6: for every form state, formDataToSettings totally produces a
Settings whose apiKey is the trimmed input and whose model is the input
model (both fields always present), and each optional field is omitted
exactly when its source string is blank after trimming or fails to parse
as a number (organizationId: blank only). -/
theorem c6_formDataToSettings_omission (f : FormState) :
    (formDataToSettings f).apiKey = jsTrim f.apiKey
  ∧ (formDataToSettings f).model = f.model
  ∧ ((formDataToSettings f).organizationId = none ↔ jsTrim f.organizationId = [])
  ∧ ((formDataToSettings f).maxTokens = none ↔
      (jsTrim f.maxTokens = [] ∨ jsParseInt f.maxTokens = none))
  ∧ ((formDataToSettings f).temperature = none ↔
      (jsTrim f.temperature = [] ∨ jsParseFloat f.temperature = none)) := by
  refine ⟨rfl, rfl, ?_, ?_, ?_⟩
  · simp only [formDataToSettings]
    by_cases h : (jsTrim f.organizationId).isEmpty
    · simp [h, List.isEmpty_iff.mp h]
    · simp [h]
      exact fun hc => absurd (List.isEmpty_iff.mpr hc) h
  · simp only [formDataToSettings]
    by_cases h : (jsTrim f.maxTokens).isEmpty
    · simp [h, List.isEmpty_iff.mp h]
    · have hne : ¬ jsTrim f.maxTokens = [] := fun hc => absurd (List.isEmpty_iff.mpr hc) h
      cases hp : jsParseInt f.maxTokens <;> simp [h, hp, hne]
  · simp only [formDataToSettings]
    by_cases h : (jsTrim f.temperature).isEmpty
    · simp [h, List.isEmpty_iff.mp h]
    · have hne : ¬ jsTrim f.temperature = [] := fun hc => absurd (List.isEmpty_iff.mpr hc) h
      cases hp : jsParseFloat f.temperature <;> simp [h, hp, hne]

/-- C7 counterexample: a whitespace-only maxTokens (or temperature)
string is non-empty and parses to NaN, so the claim demands the range
error, yet validateForm skips the check behind the trim guard and reports
no error. -/
theorem c7_counterexample :
    c7cForm.maxTokens ≠ [] ∧ jsParseInt c7cForm.maxTokens = none
  ∧ (validateForm c7cForm).maxTokens = none
  ∧ c7cForm.temperature ≠ [] ∧ jsParseFloat c7cForm.temperature = none
  ∧ (validateForm c7cForm).temperature = none := by decide

/-- C7 (amended): the non-emptiness guard is on the trimmed string: a
maxTokens or temperature string that trims to blank is skipped and yields
no error; for every form whose maxTokens trims non-blank, validateForm
reports "Max tokens must be between 1 and 8192" exactly when parseInt
yields NaN or a value outside [1, 8192]; analogously for a temperature
string trimming non-blank, with parseFloat, 0, and 2. -/
theorem c7_numeric_range_validation (f : FormState) :
    (jsTrim f.maxTokens = [] → (validateForm f).maxTokens = none)
  ∧ (jsTrim f.temperature = [] → (validateForm f).temperature = none)
  ∧ (jsTrim f.maxTokens ≠ [] →
      ((validateForm f).maxTokens = some msgMaxTokens ↔
        (jsParseInt f.maxTokens = none ∨
          ∃ n, jsParseInt f.maxTokens = some n ∧ (n < 1 ∨ 8192 < n))))
  ∧ (jsTrim f.temperature ≠ [] →
      ((validateForm f).temperature = some msgTemperature ↔
        (jsParseFloat f.temperature = none ∨
          ∃ v, jsParseFloat f.temperature = some v ∧
            (jsNumLt v (JsNum.fin 0) = true ∨ jsNumLt (JsNum.fin 2) v = true)))) := by
  refine ⟨?_, ?_, ?_, ?_⟩
  · intro hb
    simp [validateForm, hb]
  · intro hb
    simp [validateForm, hb]
  · intro h
    have h' : (jsTrim f.maxTokens).isEmpty = false := by
      cases hc : jsTrim f.maxTokens with
      | nil => exact absurd hc h
      | cons a t => rfl
    simp only [validateForm, h', Bool.not_false, if_true]
    cases hp : jsParseInt f.maxTokens with
    | none => simp [hp]
    | some n =>
      by_cases hr : n < 1 ∨ 8192 < n <;> simp [hp, hr]
  · intro h
    have h' : (jsTrim f.temperature).isEmpty = false := by
      cases hc : jsTrim f.temperature with
      | nil => exact absurd hc h
      | cons a t => rfl
    simp only [validateForm, h', Bool.not_false, if_true]
    cases hp : jsParseFloat f.temperature with
    | none => simp [hp]
    | some v =>
      by_cases hr : (jsNumLt v (JsNum.fin 0) || jsNumLt (JsNum.fin 2) v) = true <;>
        simp [hp, hr] <;> simp [Bool.or_eq_true] at hr <;> tauto

theorem c7_witness :
    (validateForm c7Form).maxTokens = some msgMaxTokens
  ∧ (validateForm c7Form).temperature = some msgTemperature
  ∧ (validateForm c7cForm).maxTokens = none := by
  have h := c7_numeric_range_validation c7Form
  have hc := c7_numeric_range_validation c7cForm
  exact ⟨(h.2.2.1 (by decide)).mpr (Or.inr ⟨10000, by decide, by decide⟩),
         (h.2.2.2 (by decide)).mpr (Or.inr ⟨JsNum.fin 3, by decide, by decide⟩),
         hc.1 (by decide)⟩

/- The Bool regex test agrees with the structural description of a
well-formed key. -/
theorem matchesApiKey_iff (s : List Char) : matchesApiKey s = true ↔ apiKeyWellFormed s := by
  unfold matchesApiKey apiKeyWellFormed
  simp only [Bool.and_eq_true, List.all_eq_true, beq_iff_eq, List.isPrefixOf_iff_prefix,
    List.length_drop]
  constructor
  · rintro ⟨⟨hpre, hlen⟩, hall⟩
    have h3 : (str (r"sk-")).length = 3 := rfl
    have hle := hpre.length_le
    rw [h3] at hle
    have hlen51 : s.length = 51 := by omega
    refine ⟨hlen51, ?_, hall⟩
    have htake := List.prefix_iff_eq_take.mp hpre
    rw [h3] at htake
    exact htake.symm
  · rintro ⟨h1, h2, h3⟩
    refine ⟨⟨?_, by omega⟩, h3⟩
    rw [List.prefix_iff_eq_take]
    have hl : (str (r"sk-")).length = 3 := rfl
    rw [hl]
    exact h2.symm

/-- C4 counterexample: a string with a leading space before a well-formed
key neither matches the pattern nor is empty, yet validateForm reports no
apiKey error, because the source tests the trimmed string. -/
theorem c4_counterexample :
    (' ' :: skKey) ≠ [] ∧ ¬ apiKeyWellFormed (' ' :: skKey)
  ∧ (validateForm c4Form).apiKey = none := by decide

/-- C4 (amended): the classification applies to the trimmed apiKey: a
trimmed value matching sk- plus 48 alphanumerics yields no apiKey error, a
string trimming to empty yields the required-error, and any other string
yields the invalid-format error. -/
theorem c4_apiKey_validation (f : FormState) :
    (apiKeyWellFormed (jsTrim f.apiKey) → (validateForm f).apiKey = none)
  ∧ (jsTrim f.apiKey = [] → (validateForm f).apiKey = some msgApiKeyRequired)
  ∧ (jsTrim f.apiKey ≠ [] → ¬ apiKeyWellFormed (jsTrim f.apiKey) →
      (validateForm f).apiKey = some msgApiKeyInvalid) := by
  refine ⟨?_, ?_, ?_⟩
  · intro h
    have hne : (jsTrim f.apiKey).isEmpty = false := by
      have hnn : jsTrim f.apiKey ≠ [] := by
        intro hc
        rw [hc] at h
        exact absurd h.1 (by decide)
      cases hc : jsTrim f.apiKey with
      | nil => exact absurd hc hnn
      | cons a t => rfl
    have hm : matchesApiKey (jsTrim f.apiKey) = true := (matchesApiKey_iff _).mpr h
    simp [validateForm, hne, hm]
  · intro h
    simp [validateForm, h]
  · intro h1 h2
    have hne : (jsTrim f.apiKey).isEmpty = false := by
      cases hc : jsTrim f.apiKey with
      | nil => exact absurd hc h1
      | cons a t => rfl
    have hm : matchesApiKey (jsTrim f.apiKey) = false := by
      cases hq : matchesApiKey (jsTrim f.apiKey)
      · rfl
      · exact absurd ((matchesApiKey_iff _).mp hq) h2
    simp [validateForm, hne, hm]

theorem c4_witness : (validateForm c4wForm).apiKey = none :=
  (c4_apiKey_validation c4wForm).1 (by decide)

/-- C5 counterexample: a form with a leading space on the apiKey passes
validation, yet the round trip through formDataToSettings and
settingsToFormData changes the apiKey (it comes back trimmed), a
difference that is not numeric re-stringification. -/
theorem c5_counterexample :
    validateForm c5Form = noErrors
  ∧ (settingsToFormData (formDataToSettings c5Form)).apiKey ≠ c5Form.apiKey := by decide

/-- C5 (amended): for every form that passes validation, the round trip
reproduces the trimmed apiKey and organizationId, the model verbatim,
blank numeric fields as blank, and each non-blank numeric field as the
re-stringification of its parsed value. -/
theorem c5_roundtrip_normalized (f : FormState) (h : validateForm f = noErrors) :
    (settingsToFormData (formDataToSettings f)).apiKey = jsTrim f.apiKey
  ∧ (settingsToFormData (formDataToSettings f)).organizationId = jsTrim f.organizationId
  ∧ (settingsToFormData (formDataToSettings f)).model = f.model
  ∧ (jsTrim f.maxTokens = [] → (settingsToFormData (formDataToSettings f)).maxTokens = [])
  ∧ (∀ n, jsParseInt f.maxTokens = some n → jsTrim f.maxTokens ≠ [] →
      (settingsToFormData (formDataToSettings f)).maxTokens = jsNumToString (JsNum.fin (mkRat n 1)))
  ∧ (jsTrim f.temperature = [] → (settingsToFormData (formDataToSettings f)).temperature = [])
  ∧ (∀ v, jsParseFloat f.temperature = some v → jsTrim f.temperature ≠ [] →
      (settingsToFormData (formDataToSettings f)).temperature = jsNumToString v) := by
  have hmodel : f.model.isEmpty = false := by
    cases hc : f.model with
    | nil =>
      have hm : (validateForm f).model = none := by rw [h]; rfl
      simp [validateForm, hc] at hm
    | cons a t => rfl
  refine ⟨?_, ?_, ?_, ?_, ?_, ?_, ?_⟩
  · simp only [settingsToFormData, formDataToSettings]
    by_cases hc : (jsTrim f.apiKey).isEmpty
    · simp [hc, List.isEmpty_iff.mp hc]
    · simp [hc]
  · simp only [settingsToFormData, formDataToSettings]
    by_cases hc : (jsTrim f.organizationId).isEmpty
    · simp [hc, List.isEmpty_iff.mp hc]
    · simp [hc]
  · simp only [settingsToFormData, formDataToSettings]
    simp [hmodel]
  · intro hb
    simp [settingsToFormData, formDataToSettings, hb]
  · intro n hp hne
    have hc : (jsTrim f.maxTokens).isEmpty = false := by
      cases hx : jsTrim f.maxTokens with
      | nil => exact absurd hx hne
      | cons a t => rfl
    simp [settingsToFormData, formDataToSettings, hc, hp]
  · intro hb
    simp [settingsToFormData, formDataToSettings, hb]
  · intro v hp hne
    have hc : (jsTrim f.temperature).isEmpty = false := by
      cases hx : jsTrim f.temperature with
      | nil => exact absurd hx hne
      | cons a t => rfl
    simp [settingsToFormData, formDataToSettings, hc, hp]

theorem c5_witness :
    (settingsToFormData (formDataToSettings c5wForm)).maxTokens = str (r"42")
  ∧ (settingsToFormData (formDataToSettings c5wForm)).temperature = str (r"0.7") := by
  have h := c5_roundtrip_normalized c5wForm (by decide)
  constructor
  · have h1 := h.2.2.2.2.1 42 (by decide) (by decide)
    rw [h1]; decide
  · have h2 := h.2.2.2.2.2.2 (JsNum.fin (mkRat 7 10)) (by decide) (by decide)
    rw [h2]; decide

/-- C1 counterexample: a remote payload missing apiKey fails the
revalidation while local storage holds a valid record, yet loadSettings
returns absent — it does not fall through to the local settings. -/
theorem c1_counterexample :
    validateSettings c1RawBad = none
  ∧ loadFromLocalStorage (LocalStore.stored c1RawGood) =
      some { apiKey := str (r"sk-local-key"), model := str (r"gpt-4o") }
  ∧ loadSettings (some (RemoteGet.returns (some c1RawBad))) (LocalStore.stored c1RawGood) =
      none := by decide

/-- C1 (amended): when the remote read resolves with a payload that fails
the defensive revalidation, loadSettings returns absent immediately —
never that payload, and never the local settings; the fall-through to
local storage happens when the remote read throws. -/
theorem c1_load_invalid_remote (raw : RawSettings) (ls : LocalStore)
    (h : validateSettings raw = none) :
    loadSettings (some (RemoteGet.returns (some raw))) ls = none
  ∧ loadSettings (some RemoteGet.throws) ls = loadFromLocalStorage ls :=
  ⟨h, rfl⟩

theorem c1_witness :
    loadSettings (some (RemoteGet.returns (some c1RawBad))) LocalStore.empty = none :=
  (c1_load_invalid_remote c1RawBad LocalStore.empty (by decide)).1

/-- C3 counterexample: a non-2xx response whose body is unparseable does
not produce the "HTTP status: statusText" fallback the claim requires —
the rejected json() promise lands in the outer catch and the parse error's
message is returned instead. -/
theorem c3_counterexample :
    testConnection (FetchOutcome.resp false 500 (str (r"Internal Server Error"))
        (Body.unparseable (str (r"Unexpected end of JSON input")))) =
      { success := false, message := msgConnFailed,
        error := some (str (r"Unexpected end of JSON input")), models := none }
  ∧ (str (r"Unexpected end of JSON input")) ≠
      httpFallback 500 (str (r"Internal Server Error")) := by decide

/-- C3 (amended): every non-2xx response yields success=false with message
"Connection failed"; the error detail is the structured message when the
body parses to one that is non-empty, the "HTTP status: statusText"
fallback when the body parses but the message is absent or empty, and the
parse error's own message when the body is unparseable. -/
theorem c3_testConnection_failure (status : ℕ) (statusText : List Char) :
    (∀ m d, m ≠ [] →
      testConnection (FetchOutcome.resp false status statusText (Body.json (some m) d)) =
        { success := false, message := msgConnFailed, error := some m, models := none })
  ∧ (∀ d, testConnection (FetchOutcome.resp false status statusText (Body.json none d)) =
      { success := false, message := msgConnFailed,
        error := some (httpFallback status statusText), models := none })
  ∧ (∀ d, testConnection (FetchOutcome.resp false status statusText (Body.json (some []) d)) =
      { success := false, message := msgConnFailed,
        error := some (httpFallback status statusText), models := none })
  ∧ (∀ m, testConnection (FetchOutcome.resp false status statusText (Body.unparseable m)) =
      { success := false, message := msgConnFailed, error := some m, models := none }) := by
  refine ⟨?_, fun d => rfl, fun d => rfl, fun m => rfl⟩
  intro m d hm
  have hne : m.isEmpty = false := by
    cases hc : m with
    | nil => exact absurd hc hm
    | cons a t => rfl
  simp [testConnection, hne]

theorem c3_witness :
    testConnection (FetchOutcome.resp false 401 (str (r"Unauthorized"))
        (Body.json (some (str (r"Invalid API key"))) none)) =
      { success := false, message := msgConnFailed,
        error := some (str (r"Invalid API key")), models := none } :=
  (c3_testConnection_failure 401 (str (r"Unauthorized"))).1
    (str (r"Invalid API key")) none (by decide)

/- Shape of the optional numeric fields of any successfully revalidated
record. -/
theorem validateSettings_shape (d : RawSettings) (s : Settings)
    (h : validateSettings d = some s) :
    s.maxTokens = (match d.maxTokens with
      | JsVal.vnum n => if jsNumTruthy n then some n else none
      | _ => none)
  ∧ s.temperature = (match d.temperature with
      | JsVal.vnum n => if jsNumTruthy n then some n else none
      | _ => none) := by
  cases hA : d.apiKey with
  | vstr kA =>
    simp only [validateSettings, hA] at h
    by_cases hk : kA.isEmpty
    · simp [hk] at h
    · simp [hk] at h
      cases hM : d.model with
      | vstr kM =>
        simp [hM] at h
        obtain ⟨h1, h2, h3⟩ := h
        subst h3
        exact ⟨rfl, rfl⟩
      | vnum nM => simp only [hM] at h; exact Option.noConfusion h
      | vbool bM => simp only [hM] at h; exact Option.noConfusion h
      | vnull => simp only [hM] at h; exact Option.noConfusion h
      | vundef => simp only [hM] at h; exact Option.noConfusion h
  | vnum nA => simp only [validateSettings, hA] at h; exact Option.noConfusion h
  | vbool bA => simp only [validateSettings, hA] at h; exact Option.noConfusion h
  | vnull => simp only [validateSettings, hA] at h; exact Option.noConfusion h
  | vundef => simp only [validateSettings, hA] at h; exact Option.noConfusion h

/-- C10: for every raw record accepted by the defensive revalidation, an
optional numeric field is kept exactly when the source value is
number-typed and truthy; in particular maxTokens or temperature equal to
the number 0 — inside the valid form ranges — is silently omitted. -/
theorem c10_validateSettings_truthy_numbers (d : RawSettings) (s : Settings)
    (h : validateSettings d = some s) :
    (∀ n, s.maxTokens = some n ↔ (d.maxTokens = JsVal.vnum n ∧ jsNumTruthy n = true))
  ∧ (∀ v, s.temperature = some v ↔ (d.temperature = JsVal.vnum v ∧ jsNumTruthy v = true))
  ∧ (d.maxTokens = JsVal.vnum (JsNum.fin 0) → s.maxTokens = none)
  ∧ (d.temperature = JsVal.vnum (JsNum.fin 0) → s.temperature = none) := by
  obtain ⟨hmx, htp⟩ := validateSettings_shape d s h
  refine ⟨?_, ?_, ?_, ?_⟩
  · intro n
    rw [hmx]
    cases hMT : d.maxTokens with
    | vnum x =>
      by_cases ht : jsNumTruthy x = true
      · simp [ht]
        rintro rfl
        exact ht
      · simp [ht]
        rintro rfl
        exact Bool.eq_false_iff.mpr ht
    | vstr o => simp
    | vbool b => simp
    | vnull => simp
    | vundef => simp
  · intro v
    rw [htp]
    cases hMT : d.temperature with
    | vnum x =>
      by_cases ht : jsNumTruthy x = true
      · simp [ht]
        rintro rfl
        exact ht
      · simp [ht]
        rintro rfl
        exact Bool.eq_false_iff.mpr ht
    | vstr o => simp
    | vbool b => simp
    | vnull => simp
    | vundef => simp
  · intro he
    rw [hmx, he]
    decide
  · intro he
    rw [htp, he]
    decide

theorem c10_witness :
    validateSettings c10Raw = some c10Settings
  ∧ c10Settings.maxTokens = none ∧ c10Settings.temperature = none := by
  have h := c10_validateSettings_truthy_numbers c10Raw c10Settings (by decide)
  exact ⟨by decide, h.2.2.1 (by decide), h.2.2.2 (by decide)⟩
